import Mathlib

/-!
Shallow embedding of the `insights` CLI (src/main.rs): connection
resolution from flags and the YAML config, output-format selection,
NRQL query construction for the `complete` subcommand, and the result
rendering pipeline (raw / json / table / csv).

External library calls (clap lookups, serde_yaml / serde_json parsing,
the HTTP client) are modelled by their outcomes; everything the
repository itself computes is translated function by function.
-/

namespace Insights

/-- Mirrors `struct Account` (src/main.rs lines 30-34): one named
credential set from the YAML config. -/
structure Account where
  account_id : String
  api_key : String
  url : Option String
deriving Repr, DecidableEq

/-- Mirrors `struct Config` (src/main.rs lines 36-40).  The Rust
`HashMap<String, Account>` is modelled as an association list; the only
operation the source performs on it is `get`, modelled by
`List.lookup`. -/
structure Config where
  defaultAccount : Option String
  accounts : Option (List (String × Account))
deriving Repr, DecidableEq

/-- Mirrors `struct Connection` (src/main.rs lines 46-50). -/
structure Connection where
  account_id : String
  api_key : String
  url : String
deriving Repr, DecidableEq

/-- Error kinds of the tool, one per `err_msg` construction site in the
source (the spec gives them these names).  `malformedResponse` is the
error kind the spec assigns to an unparsable response body; the source
has no construction site for it. -/
inductive InsightsError where
  | invalidArguments
  | homeDirNotFound
  | configNotFound (path : String)
  | ioError
  | configParseError
  | noAccountSpecified
  | unknownAccount (key : String)
  | unsupportedFormat
  | malformedResponse
deriving Repr, DecidableEq

/-- Outcome of `Connection::from_args`: `Ok`, `Err`, or a process abort
from an `unwrap()` on `None` (a Rust panic). -/
inductive Resolved where
  | ok (c : Connection)
  | err (e : InsightsError)
  | panicked
deriving Repr, DecidableEq

/-- The four `matches.value_of(...)` lookups `Connection::from_args`
performs (src/main.rs lines 55-57 and 76-77). -/
structure ArgValues where
  account_id : Option String
  api_key : Option String
  url : Option String
  account : Option String
deriving Repr, DecidableEq

/-- Outcomes of the environment interactions of `Connection::from_args`:
`dirs::home_dir()`, `Path::exists`, `File::open`, and
`serde_yaml::from_reader` (external library calls, modelled by their
results). -/
structure Env where
  homeDir : Option String
  configExists : Bool
  openOk : Bool
  parsedConfig : Option Config
deriving Repr, DecidableEq

/-- `let default_url = "https://insights-api.newrelic.com/"` (line 54). -/
def defaultUrl : String := "https://insights-api.newrelic.com/"

/-- The effective account key (src/main.rs lines 76-79):
`matches.value_of("account").or(config.default.as_ref().map(Deref::deref))`. -/
def effectiveAccount (flagAccount : Option String) (config : Config) : Option String :=
  match flagAccount with
  | some a => some a
  | none => config.defaultAccount

/-- Mirrors `Connection::from_args` (src/main.rs lines 53-102).  The
`(config.accounts).unwrap()` on line 80 panics when `accounts` is
absent, hence the `Resolved.panicked` outcome there. -/
def Connection.fromArgs (m : ArgValues) (env : Env) : Resolved :=
  let account_id := m.account_id
  let api_key := m.api_key
  let url := m.url
  if account_id = none ∨ api_key = none then
    if account_id ≠ none ∨ api_key ≠ none then
      .err .invalidArguments
    else
      match env.homeDir with
      | none => .err .homeDirNotFound
      | some home_dir =>
        let config_path := home_dir ++ "/.insights.yaml"
        if ¬ env.configExists then .err (.configNotFound config_path)
        else if ¬ env.openOk then .err .ioError
        else
          match env.parsedConfig with
          | none => .err .configParseError
          | some config =>
            match effectiveAccount m.account config with
            | none => .err .noAccountSpecified
            | some account =>
              match config.accounts with
              | none => .panicked
              | some accounts =>
                match accounts.lookup account with
                | none => .err (.unknownAccount account)
                | some account_config =>
                  .ok ⟨account_config.account_id, account_config.api_key,
                       account_config.url.getD defaultUrl⟩
  else
    match account_id, api_key with
    | some id, some key => .ok ⟨id, key, url.getD defaultUrl⟩
    | _, _ => .panicked

/-- The credential-related arguments the `nrql` clap app actually
declares (src/main.rs lines 302-322): `--account` (short `-a`),
`--account_id` (short `-i`), `--api_key` (short `-k`).  No `url`
argument is declared anywhere, so
`matches.value_of("url")` on line 57 is always `None`. -/
structure Cli where
  account : Option String
  account_id : Option String
  api_key : Option String
deriving Repr, DecidableEq

/-- The `ArgValues` a real CLI invocation yields: the three declared
flags, and `none` for the undeclared `url` argument. -/
def Cli.toArgValues (c : Cli) : ArgValues :=
  ⟨c.account_id, c.api_key, none, c.account⟩

/-- Connection resolution as reachable from the command line. -/
def resolveConnection (c : Cli) (env : Env) : Resolved :=
  Connection.fromArgs c.toArgValues env

/-- Mirrors `enum Format` (src/main.rs lines 121-127). -/
inductive Format where
  | Raw
  | JSON
  | CSV
  | Table
deriving Repr, DecidableEq

/-- The four boolean formatting flags each subcommand declares
(src/main.rs lines 271-294): `matches.is_present(...)` per flag. -/
structure FormatFlags where
  raw : Bool
  json : Bool
  csv : Bool
  table : Bool
deriving Repr, DecidableEq

/-- Mirrors `Format::from_args` (src/main.rs lines 130-144): the checks
run in source order `json`, `csv`, `raw`, `table`, and the fall-through
return is `Format::Table`. -/
def Format.fromArgs (m : FormatFlags) : Format :=
  if m.json then .JSON
  else if m.csv then .CSV
  else if m.raw then .Raw
  else if m.table then .Table
  else .Table

/-- Modelled from the spec: format selection follows the precedence
JSON > CSV > Raw > Table, with Table the default when no flag is set.
Written from the spec sentence, to be compared with `Format.fromArgs`. -/
def formatPrecedenceSpec (m : FormatFlags) : Format :=
  if m.json then .JSON
  else if m.csv then .CSV
  else if m.raw then .Raw
  else .Table

/-- Mirrors the `complete` branch of `process_matches` (src/main.rs
lines 251-258): build the base query with `format!`, append the `where`
clause only when a partial argument is present, then append the time
window. -/
def completeQuery (table column : String) (part : Option String) : String :=
  let query := "select uniques(" ++ column ++ ") from " ++ table
  let query :=
    match part with
    | some p => query ++ (" where " ++ column ++ " like \x27" ++ p ++ "%\x27")
    | none => query
  query ++ " since 1 week ago"

/-- A `serde_json::Value`.  Numbers are modelled as integers (the claims
only exercise integral values); object fields are kept as a list of
pairs in the map's iteration order — `serde_json`'s default `Map` is a
`BTreeMap`, so that order is the sorted key order. -/
inductive Value where
  | null
  | bool (b : Bool)
  | num (n : Int)
  | str (s : String)
  | arr (xs : List Value)
  | obj (fields : List (String × Value))
deriving Repr

/-- The double-quote character, written via its code point. -/
def dquote : Char := Char.ofNat 34

/-- How `serde_json` escapes one character inside a JSON string:
backslash escapes for quote, backslash, and the common control
characters, `\uXXXX` for the remaining control characters, the
character itself otherwise. -/
def escapeChar (c : Char) : String :=
  if c = dquote then "\\\""
  else if c = '\\' then "\\\\"
  else if c = '\x08' then "\\b"
  else if c = '\x0c' then "\\f"
  else if c = '\n' then "\\n"
  else if c = '\r' then "\\r"
  else if c = '\t' then "\\t"
  else if c.toNat < 32 then "\\u" ++ hexDigits c.toNat
  else String.singleton c
where
  hexDigit (n : Nat) : String :=
    String.singleton (if n < 10 then Char.ofNat (48 + n) else Char.ofNat (87 + n - 10))
  hexDigits (n : Nat) : String :=
    hexDigit (n / 4096 % 16) ++ hexDigit (n / 256 % 16) ++
      hexDigit (n / 16 % 16) ++ hexDigit (n % 16)

/-- A JSON string literal: the escaped content between double quotes. -/
def quoteJson (s : String) : String :=
  "\"" ++ String.join (s.data.map escapeChar) ++ "\""

mutual

/-- The compact serialization `Value::to_string` of `serde_json`:
no whitespace, `,` between items, `:` after keys. -/
def Value.render : Value → String
  | .null => "null"
  | .bool b => if b then "true" else "false"
  | .num n => toString n
  | .str s => quoteJson s
  | .arr xs => "[" ++ renderItems xs ++ "]"
  | .obj fs => "\x7b" ++ renderFields fs ++ "\x7d"

/-- Comma-separated serialization of array items. -/
def renderItems : List Value → String
  | [] => ""
  | [v] => v.render
  | v :: rest => v.render ++ "," ++ renderItems rest

/-- Comma-separated serialization of object fields. -/
def renderFields : List (String × Value) → String
  | [] => ""
  | [(k, v)] => quoteJson k ++ ":" ++ v.render
  | (k, v) :: rest => quoteJson k ++ ":" ++ v.render ++ "," ++ renderFields rest

end

/-- A run of `n` spaces. -/
def spaces (n : Nat) : String := String.mk (List.replicate n ' ')

mutual

/-- The pretty serialization `serde_json::to_string_pretty`: two-space
indentation, one item per line, `": "` after keys, `[]` and `\x7b\x7d`
for the empty collections.  `ind` is the current indentation width. -/
def prettyValue : Nat → Value → String
  | _, .null => "null"
  | _, .bool b => if b then "true" else "false"
  | _, .num n => toString n
  | _, .str s => quoteJson s
  | _, .arr [] => "[]"
  | ind, .arr (x :: xs) =>
    "[\n" ++ prettyItems (ind + 2) x xs ++ "\n" ++ spaces ind ++ "]"
  | _, .obj [] => "\x7b\x7d"
  | ind, .obj ((k, v) :: fs) =>
    "\x7b\n" ++ prettyFields (ind + 2) k v fs ++ "\n" ++ spaces ind ++ "\x7d"
termination_by _ v => sizeOf v
decreasing_by
  all_goals simp_wf
  all_goals omega

/-- Indented, comma-and-newline-separated pretty items. -/
def prettyItems (ind : Nat) (x : Value) : List Value → String
  | [] => spaces ind ++ prettyValue ind x
  | y :: rest => spaces ind ++ prettyValue ind x ++ ",\n" ++ prettyItems ind y rest
termination_by rest => 1 + sizeOf x + sizeOf rest
decreasing_by
  all_goals simp_wf
  all_goals omega

/-- Indented, comma-and-newline-separated pretty fields. -/
def prettyFields (ind : Nat) (k : String) (v : Value) :
    List (String × Value) → String
  | [] => spaces ind ++ quoteJson k ++ ": " ++ prettyValue ind v
  | (k2, v2) :: rest =>
    spaces ind ++ quoteJson k ++ ": " ++ prettyValue ind v ++ ",\n" ++
      prettyFields ind k2 v2 rest
termination_by rest => 1 + sizeOf v + sizeOf rest
decreasing_by
  all_goals simp_wf
  all_goals omega

end

/-- Mirrors `.trim_matches::<&[char]>(&['"'])` (src/main.rs line 204):
repeatedly remove the double-quote character from both ends of the
string. -/
def trimQuotes (s : String) : String :=
  String.mk (((s.data.dropWhile (· == dquote)).reverse.dropWhile (· == dquote)).reverse)

/-- One table cell (src/main.rs lines 201-206):
`obj_value[k].to_string().trim_matches(&['"'])`. -/
def renderCell (v : Value) : String :=
  trimQuotes v.render

/-- The mutable state of the `for v in value` loop of `print_table`
(src/main.rs lines 182-218): the `first` flag, the running column
widths, the buffered rows, and the lines already printed by the
immediate `println!` arms (plain strings and the unexpected-type
diagnostic). -/
structure TableState where
  first : Bool
  widths : List Nat
  rows : List (List String)
  printed : List String
deriving Repr, DecidableEq

/-- Loop state before the first element. -/
def initTableState : TableState := ⟨true, [], [], []⟩

/-- One iteration of the `print_table` loop (src/main.rs lines 186-218).
String lengths stand for Rust's byte `len()`; the source itself notes it
does not handle multi-byte characters, and the claims are ASCII-only. -/
def tableStep (st : TableState) (v : Value) : TableState :=
  match v with
  | .str string_value => { st with printed := st.printed ++ [string_value] }
  | .obj obj_value =>
    let st :=
      if st.first then
        { st with
          widths := obj_value.map (fun kv => kv.1.length)
          rows := st.rows ++ [obj_value.map (fun kv => kv.1)]
          first := false }
      else st
    let row := obj_value.map (fun kv => renderCell kv.2)
    let widths := ((row.map String.length).zip st.widths).map (fun p => max p.1 p.2)
    { st with rows := st.rows ++ [row], widths := widths }
  | _ => { st with printed := st.printed ++ ["Unexpected type in result!"] }

/-- `print!("\x7b:<width$\x7d ", column, width = width)`: the cell
left-aligned (padded with spaces to the column width, never truncated)
followed by the single separator space. -/
def padCell (column : String) (width : Nat) : String :=
  column ++ spaces (width - column.length) ++ " "

/-- One printed table line (src/main.rs lines 220-223): the row's cells
zipped with the final widths, each padded, then the `println!("")`. -/
def rowLine (widths : List Nat) (row : List String) : String :=
  String.join ((row.zip widths).map (fun cw => padCell cw.1 cw.2))

/-- Mirrors `struct QueryResults` (src/main.rs lines 42-44).  The raw
response text is represented by the outcome of the external parser
`serde_json::from_str::<Value>` on it: `some v` when the body is valid
JSON denoting `v`, `none` when it is not valid JSON. -/
structure QueryResults where
  rawParse : Option Value

/-- The typed parse `serde_json::from_str::<Results>` given the generic
parse of the same text: the top level must be a JSON object whose
`results` field is an array (other fields are ignored, a missing or
non-array `results` is a deserialization error). -/
def parseResults (v : Value) : Option (List Value) :=
  match v with
  | .obj fields =>
    match fields.lookup "results" with
    | some (.arr results) => some results
    | _ => none
  | _ => none

/-- The envelope access shared by `print_json` and `print_table`
(src/main.rs lines 170-171 and 180-181):
`parsed.results[0].as_object().unwrap()` then
`props[props.keys().next().unwrap()].as_array().unwrap()`.
`none` stands for a panic: indexing an empty `results`, `as_object` on a
non-object, `keys().next()` on an empty object, or `as_array` on a
non-array. -/
def envelopeValues (results : List Value) : Option (List Value) :=
  match results with
  | [] => none
  | r0 :: _ =>
    match r0 with
    | .obj ((_, .arr xs) :: _) => some xs
    | _ => none

/-- Outcome of one printer: the chunks written to standard output, an
`Err` return, or a panic from an `unwrap()`. -/
inductive RenderResult where
  | ok (out : List String)
  | err (e : InsightsError)
  | panicked
deriving Repr, DecidableEq

/-- Mirrors `print_raw` (src/main.rs lines 157-164):
`serde_json::from_str::<Value>(&self.raw).unwrap()` — a panic on a body
that is not valid JSON — then `print!` of the pretty serialization. -/
def QueryResults.printRaw (qr : QueryResults) : RenderResult :=
  match qr.rawParse with
  | none => .panicked
  | some v => .ok [prettyValue 0 v]

/-- Mirrors `print_json` (src/main.rs lines 166-174): the typed parse
and every envelope access are `unwrap()`ed — panics — then `println!` of
the pretty serialization of the extracted array. -/
def QueryResults.printJson (qr : QueryResults) : RenderResult :=
  match qr.rawParse with
  | none => .panicked
  | some v =>
    match parseResults v with
    | none => .panicked
    | some results =>
      match envelopeValues results with
      | none => .panicked
      | some xs => .ok [prettyValue 0 (.arr xs)]

/-- Mirrors `print_table` (src/main.rs lines 176-226): the same
`unwrap()`ed parse and envelope access, then the measuring loop over all
elements, then the padded rows.  Standard output receives the lines the
loop prints immediately (plain strings and diagnostics) followed by all
buffered rows padded to the final column widths. -/
def QueryResults.printTable (qr : QueryResults) : RenderResult :=
  match qr.rawParse with
  | none => .panicked
  | some v =>
    match parseResults v with
    | none => .panicked
    | some results =>
      match envelopeValues results with
      | none => .panicked
      | some xs =>
        let st := xs.foldl tableStep initTableState
        .ok (st.printed ++ st.rows.map (rowLine st.widths))

/-- Mirrors `QueryResults::print` (src/main.rs lines 148-155): dispatch
on the format; the CSV arm returns
`Err(err_msg("Unimplemented Output Format: CSV"))` without touching the
payload. -/
def QueryResults.print (qr : QueryResults) (format : Format) : RenderResult :=
  match format with
  | .Table => qr.printTable
  | .JSON => qr.printJson
  | .Raw => qr.printRaw
  | .CSV => .err .unsupportedFormat

/-! Claim theorems. -/

/-- C1: with both `account_id` and `api_key` flags present, connection
resolution succeeds with exactly the flag values and the fixed
production endpoint as `url`, for every environment (any home
directory, config-file presence, and config content) and regardless of
a present or absent `account` flag — the config is never consulted. -/
theorem c1_flags_win (acct : Option String) (id key : String) (env : Env) :
    resolveConnection ⟨acct, some id, some key⟩ env = .ok ⟨id, key, defaultUrl⟩ := by
  simp [resolveConnection, Cli.toArgValues, Connection.fromArgs]

/-- C2: with exactly one of the `account_id` and `api_key` flags present
(one set, the other absent), connection resolution fails with the
`InvalidArguments` error, for every environment and `account` flag; no
connection is produced. -/
theorem c2_exactly_one_fails (acct : Option String) (env : Env) :
    (∀ id, resolveConnection ⟨acct, some id, none⟩ env = .err .invalidArguments) ∧
    (∀ key, resolveConnection ⟨acct, none, some key⟩ env = .err .invalidArguments) := by
  constructor
  all_goals intro s
  all_goals simp [resolveConnection, Cli.toArgValues, Connection.fromArgs]

/-- C3: when neither credential flag is given, resolution reads the
config.  For the config with default `prod` mapping to account id `1`
and key `k` and no `--account` flag, it returns the connection
`(1, k, production url)`; and in general, for every matched account
entry, an explicit `url` field becomes the connection's url while an
absent one falls back to the default base URL (`Option.getD`). -/
theorem c3_config_resolution :
    (resolveConnection ⟨none, none, none⟩
        ⟨some "/home/user", true, true,
         some ⟨some "prod", some [("prod", ⟨"1", "k", none⟩)]⟩⟩ =
      .ok ⟨"1", "k", defaultUrl⟩) ∧
    (∀ (home : String) (flagAccount : Option String) (cfg : Config)
        (key : String) (accounts : List (String × Account)) (entry : Account),
      effectiveAccount flagAccount cfg = some key →
      cfg.accounts = some accounts →
      accounts.lookup key = some entry →
      resolveConnection ⟨flagAccount, none, none⟩
          ⟨some home, true, true, some cfg⟩ =
        .ok ⟨entry.account_id, entry.api_key, entry.url.getD defaultUrl⟩) := by
  constructor
  · rfl
  · intro home flagAccount cfg key accounts entry h1 h2 h3
    simp [resolveConnection, Cli.toArgValues, Connection.fromArgs, h1, h2, h3]

/-- Witness for C3: a config whose matched entry carries an explicit
`url`, resolved through the `--account` flag; the connection's url is
the entry's own url, not the default. -/
theorem c3_config_resolution_witness :
    resolveConnection ⟨some "eu", none, none⟩
      ⟨some "/home/user", true, true,
       some ⟨none, some [("eu", ⟨"42", "key2", some "https://eu.example/"⟩)]⟩⟩ =
      .ok ⟨"42", "key2", "https://eu.example/"⟩ :=
  c3_config_resolution.2 "/home/user" (some "eu")
    ⟨none, some [("eu", ⟨"42", "key2", some "https://eu.example/"⟩)]⟩
    "eu" [("eu", ⟨"42", "key2", some "https://eu.example/"⟩)]
    ⟨"42", "key2", some "https://eu.example/"⟩ rfl rfl rfl

/-- C10: when neither credential flag is given, the config parses but
its optional `accounts` mapping is absent, and an effective account key
exists (flag or config default), `Connection::from_args` panics on the
`unwrap()` of the missing mapping instead of returning an error value:
resolution is not total over well-formed configs. -/
theorem c10_missing_accounts_panics (home : String) (flagAccount : Option String)
    (cfg : Config) (h1 : cfg.accounts = none)
    (h2 : (effectiveAccount flagAccount cfg).isSome) :
    resolveConnection ⟨flagAccount, none, none⟩
        ⟨some home, true, true, some cfg⟩ = .panicked := by
  rcases Option.isSome_iff_exists.mp h2 with ⟨key, hkey⟩
  simp [resolveConnection, Cli.toArgValues, Connection.fromArgs, h1, hkey]

/-- Witness for C10: the config `default: prod, accounts: absent` with
no `--account` flag makes resolution panic. -/
theorem c10_missing_accounts_panics_witness :
    (Config.accounts ⟨some "prod", none⟩ = none) ∧
    (effectiveAccount none ⟨some "prod", none⟩).isSome = true ∧
    resolveConnection ⟨none, none, none⟩
        ⟨some "/home/user", true, true, some ⟨some "prod", none⟩⟩ = .panicked :=
  ⟨rfl, rfl, c10_missing_accounts_panics "/home/user" none ⟨some "prod", none⟩ rfl rfl⟩

/-- C6: for every response payload, selecting the CSV format fails with
the `UnsupportedFormat` error, whether or not the payload is valid, and
produces no output. -/
theorem c6_csv_unsupported (qr : QueryResults) :
    qr.print .CSV = .err .unsupportedFormat ∧ ∀ out, qr.print .CSV ≠ .ok out :=
  ⟨rfl, fun _ h => nomatch h⟩

/-- C7: over all sixteen combinations of the four boolean format flags,
`Format::from_args` realizes the precedence JSON > CSV > Raw > Table,
with Table selected when no flag is set (`formatPrecedenceSpec` is that
precedence written out from the spec). -/
theorem c7_format_precedence (m : FormatFlags) :
    Format.fromArgs m = formatPrecedenceSpec m := by
  rcases m with ⟨r, j, c, t⟩
  cases j <;> cases c <;> cases r <;> cases t <;> rfl

/-- C8: the `complete` subcommand builds
`select uniques(attr) from type where attr like \x27partial%\x27 since 1 week ago`
when a partial argument is supplied, drops the `where` clause when it is
omitted, and on `Txn`, `status`, `OK` yields exactly the expected
text. -/
theorem c8_complete_query :
    (∀ (t a p : String),
      completeQuery t a (some p) =
        "select uniques(" ++ a ++ ") from " ++ t ++ " where " ++ a ++
          " like \x27" ++ p ++ "%\x27 since 1 week ago") ∧
    (∀ (t a : String),
      completeQuery t a none =
        "select uniques(" ++ a ++ ") from " ++ t ++ " since 1 week ago") ∧
    completeQuery "Txn" "status" (some "OK") =
      "select uniques(status) from Txn where status like \x27OK%\x27 since 1 week ago" := by
  refine ⟨fun t a p => ?_, fun t a => rfl, rfl⟩
  have hlit : ("%\x27" : String) ++ " since 1 week ago" = "%\x27 since 1 week ago" := rfl
  simp only [completeQuery, String.append_assoc, hlit]

/-- The result array of claim C4, two objects with keys `a` and `bb`. -/
def c4Rows : List Value :=
  [.obj [("a", .str "1"), ("bb", .str "22")],
   .obj [("a", .str "333"), ("bb", .str "4")]]

/-- The C4 result array wrapped in the API's response envelope. -/
def c4Envelope : Value := .obj [("results", .arr [.obj [("events", .arr c4Rows)]])]

/-- C4: on the rows `a:1, bb:22` and `a:333, bb:4`, the table header is
the first object's keys `a bb`; each column's width is the maximum
printed width over the header and all data rows (3 and 2); the widths
are those of the fully folded state, and every printed line is a
buffered row with each cell left-aligned to its column's final width
followed by one separator space — so the first data row is already
padded to the width contributed by the later, wider row. -/
theorem c4_table_layout :
    QueryResults.printTable ⟨some c4Envelope⟩ =
      .ok ["a   bb ", "1   22 ", "333 4  "] ∧
    (c4Rows.foldl tableStep initTableState).rows =
      [["a", "bb"], ["1", "22"], ["333", "4"]] ∧
    (c4Rows.foldl tableStep initTableState).widths =
      [(["a", "1", "333"].map String.length).foldl max 0,
       (["bb", "22", "4"].map String.length).foldl max 0] ∧
    (c4Rows.foldl tableStep initTableState).widths = [3, 2] ∧
    (c4Rows.foldl tableStep initTableState).printed = [] ∧
    (c4Rows.foldl tableStep initTableState).rows.map
        (rowLine (c4Rows.foldl tableStep initTableState).widths) =
      ["a   bb ", "1   22 ", "333 4  "] :=
  ⟨rfl, rfl, rfl, rfl, rfl, rfl⟩

/-- C5 amended: a response body that is not valid JSON makes Raw, JSON,
and Table rendering panic on the `unwrap()` of the failed parse — the
process crashes instead of returning an error value, so no
`MalformedResponse` error line on standard error and no exit code 1 are
produced. -/
theorem c5_panics_on_invalid_json (qr : QueryResults) (h : qr.rawParse = none) :
    qr.print .Raw = .panicked ∧ qr.print .JSON = .panicked ∧
      qr.print .Table = .panicked := by
  simp [QueryResults.print, QueryResults.printRaw, QueryResults.printJson,
    QueryResults.printTable, h]

/-- Witness for C5 amended: the body whose parse fails. -/
theorem c5_panics_on_invalid_json_witness :
    QueryResults.rawParse ⟨none⟩ = none ∧
    (QueryResults.print ⟨none⟩ .Raw = .panicked ∧
      QueryResults.print ⟨none⟩ .JSON = .panicked ∧
      QueryResults.print ⟨none⟩ .Table = .panicked) :=
  ⟨rfl, c5_panics_on_invalid_json ⟨none⟩ rfl⟩

/-- Counterexample for C5: on a body that is not valid JSON, every one
of the Raw, JSON, and Table printers ends in a panic, not in the
`MalformedResponse` error the claim requires (and so never reaches the
error-to-standard-error, exit-code-1 path of `main`). -/
theorem c5_counterexample :
    QueryResults.print ⟨none⟩ .Raw = .panicked ∧
    QueryResults.print ⟨none⟩ .JSON = .panicked ∧
    QueryResults.print ⟨none⟩ .Table = .panicked ∧
    QueryResults.print ⟨none⟩ .Raw ≠ .err .malformedResponse ∧
    QueryResults.print ⟨none⟩ .JSON ≠ .err .malformedResponse ∧
    QueryResults.print ⟨none⟩ .Table ≠ .err .malformedResponse := by
  refine ⟨rfl, rfl, rfl, ?_, ?_, ?_⟩
  all_goals intro h
  all_goals exact nomatch h

/-- Modelled from the spec: the cell transformation the spec describes,
"the JSON value's textual form with a single pair of surrounding double
quotes stripped if present" — exactly one leading and one trailing
quote removed, and only when both are present.  To be compared with
`renderCell`, the transformation the source performs. -/
def stripOnePair (s : String) : String :=
  if 2 ≤ s.data.length ∧ s.data.head? = some dquote ∧ s.data.getLast? = some dquote
  then String.mk ((s.data.drop 1).dropLast)
  else s

/-- Dropping leading quote characters from a list whose head is not a
quote changes nothing. -/
theorem dropWhile_quotes_of_head (l : List Char) (h : l.head? ≠ some dquote) :
    l.dropWhile (· == dquote) = l := by
  cases l with
  | nil => rfl
  | cons c rest =>
    have hc : ¬ c = dquote := by
      intro he
      exact h (by rw [he]; rfl)
    simp [List.dropWhile_cons, hc]

/-- `trimQuotes` is the identity on strings that neither start nor end
with a double-quote character. -/
theorem trimQuotes_eq_self (s : String) (h1 : s.data.head? ≠ some dquote)
    (h2 : s.data.getLast? ≠ some dquote) : trimQuotes s = s := by
  cases s with
  | mk d =>
    have e1 : d.dropWhile (· == dquote) = d := dropWhile_quotes_of_head d h1
    have h2r : d.reverse.head? ≠ some dquote := by
      rw [List.head?_reverse]; exact h2
    have e2 : d.reverse.dropWhile (· == dquote) = d.reverse :=
      dropWhile_quotes_of_head d.reverse h2r
    simp [trimQuotes, e1, e2]

/-- The serialized form of a JSON object is `trimQuotes`-invariant: it
starts with an opening and ends with a closing brace. -/
theorem renderCell_obj (fs : List (String × Value)) :
    renderCell (.obj fs) = (Value.obj fs).render := by
  have e : Value.render (.obj fs) = "\x7b" ++ renderFields fs ++ "\x7d" := by
    simp [Value.render]
  have hdata : (Value.render (.obj fs)).data =
      '\x7b' :: ((renderFields fs).data ++ ['\x7d']) := by
    rw [e, String.data_append, String.data_append]
    rfl
  unfold renderCell
  apply trimQuotes_eq_self
  · rw [hdata]
    intro h
    exact absurd (Option.some.inj h) (by decide)
  · rw [hdata]
    rw [show '\x7b' :: ((renderFields fs).data ++ ['\x7d']) =
      ('\x7b' :: (renderFields fs).data) ++ ['\x7d'] from rfl]
    rw [List.getLast?_concat]
    intro h
    exact absurd (Option.some.inj h) (by decide)

/-- The serialized form of a JSON array is `trimQuotes`-invariant: it
starts with an opening and ends with a closing bracket. -/
theorem renderCell_arr (xs : List Value) :
    renderCell (.arr xs) = (Value.arr xs).render := by
  have e : Value.render (.arr xs) = "[" ++ renderItems xs ++ "]" := by
    simp [Value.render]
  have hdata : (Value.render (.arr xs)).data =
      '[' :: ((renderItems xs).data ++ [']']) := by
    rw [e, String.data_append, String.data_append]
    rfl
  unfold renderCell
  apply trimQuotes_eq_self
  · rw [hdata]
    intro h
    exact absurd (Option.some.inj h) (by decide)
  · rw [hdata]
    rw [show '[' :: ((renderItems xs).data ++ [']']) =
      ('[' :: (renderItems xs).data) ++ [']'] from rfl]
    rw [List.getLast?_concat]
    intro h
    exact absurd (Option.some.inj h) (by decide)

/-- Counterexample for C9: the JSON string whose content is `x` followed
by a double quote.  Its JSON textual form is `"x\""`; stripping a single
surrounding pair would leave `x\"` (the escaped inner quote kept), but
`trim_matches(&['"'])` also removes the quote character of the escape
sequence and the cell displays `x\` — the two transformations
disagree. -/
theorem c9_counterexample :
    renderCell (.str "x\"") = "x\\" ∧
    stripOnePair (Value.render (.str "x\"")) = "x\\\"" ∧
    ("x\\" : String) ≠ "x\\\"" := by
  refine ⟨rfl, ?_, by decide⟩
  decide

/-- C9 amended: the displayed cell is the value's JSON textual form with
ALL leading and trailing double-quote characters removed (Rust's
`trim_matches` trims repeatedly, not one pair).  Numbers and booleans
render as their literal form and nested structures as unchanged JSON
text, since their forms neither start nor end with a quote.  A string
whose content begins with a quote keeps it (the escaping backslash
shields it), but a string whose content ends with a quote loses that
quote character, keeping only the backslash of its escape sequence. -/
theorem c9_cell_rendering :
    (∀ v : Value, renderCell v = trimQuotes v.render) ∧
    (∀ b, renderCell (.bool b) = (if b then "true" else "false")) ∧
    renderCell (.num 42) = "42" ∧
    renderCell (.num (-7)) = "-7" ∧
    (∀ fs, renderCell (.obj fs) = (Value.obj fs).render) ∧
    (∀ xs, renderCell (.arr xs) = (Value.arr xs).render) ∧
    renderCell (.str "\"y") = "\\\"y" ∧
    renderCell (.str "x\"") = "x\\" := by
  refine ⟨fun v => rfl, fun b => ?_, rfl, rfl, renderCell_obj, renderCell_arr, rfl, rfl⟩
  cases b <;> rfl

end Insights
